import Mathlib

/-!
Verification development for the docqa repository: a shallow embedding of the
OCR processor layer (src/docquery/ocr_processor.py), the document question
answering pipeline (src/docqa/ext/pipeline.py) and the pipeline factory
(src/docqa/pipeline.py), together with theorems settling the specification
claims. Python machine floats are modelled by exact rationals, Python ints by
Lean integers, and fallible Python code by the Except monad.
-/

namespace DocQA

/-- Python exceptions raised by the embedded code. -/
inductive PyErr
  | valueError (msg : String)
  | typeError (msg : String)
  | noOCRReaderFound (msg : String)
  | assertionError (msg : String)
deriving DecidableEq, Repr

/-- A pixel- or normalized-space box; the source passes boxes as 4-element
lists indexed box[0]..box[3], embedded here as the fields l, t, r, b. -/
structure Box where
  l : ℤ
  t : ℤ
  r : ℤ
  b : ℤ
deriving DecidableEq, Repr

/-- Python int() applied to a real number: truncation toward zero. -/
def pyTrunc (q : ℚ) : ℤ := if 0 ≤ q then ⌊q⌋ else ⌈q⌉

/-- normalize_box from src/docqa/ext/pipeline.py (lines 25-31):
each component is int(1000 * (coordinate / dimension)); no clamping. -/
def normalize_box (box : Box) (width height : ℤ) : List ℤ :=
  [ pyTrunc (1000 * ((box.l : ℚ) / (width : ℚ)))
  , pyTrunc (1000 * ((box.t : ℚ) / (height : ℚ)))
  , pyTrunc (1000 * ((box.r : ℚ) / (width : ℚ)))
  , pyTrunc (1000 * ((box.b : ℚ) / (height : ℚ))) ]

/-- OCRProcessor.normalize_box from src/docquery/ocr_processor.py
(lines 52-62): the same int(1000 * (coordinate / dimension)) components,
each additionally clamped by max(min(c, 1000), 0). -/
def OCRProcessor.normalize_box (box : Box) (width height : ℤ) : List ℤ :=
  (DocQA.normalize_box box width height).map (fun c => max (min c 1000) 0)

/-- Rounding to the nearest integer (half up), as the word round of the
specification reads. -/
def specRound (q : ℚ) : ℤ := ⌊q + 1 / 2⌋

/-- The box normalization exactly as the specification words it (for the
refinement comparison of claim C1): round(1000 * coordinate / dimension),
then clamp each component to [0, 1000]. -/
def spec_normalize_box (box : Box) (width height : ℤ) : List ℤ :=
  ([ specRound (1000 * ((box.l : ℚ) / (width : ℚ)))
   , specRound (1000 * ((box.t : ℚ) / (height : ℚ)))
   , specRound (1000 * ((box.r : ℚ) / (width : ℚ)))
   , specRound (1000 * ((box.b : ℚ) / (height : ℚ))) ]).map
    (fun c => max (min c 1000) 0)

/-! ### Tesseract OCR output filtering and normalization
(apply_tesseract, src/docqa/ext/pipeline.py lines 34-63; the identical
filtering also appears in TesseractProcessor.apply_ocr,
src/docquery/ocr_processor.py lines 69-92). -/

/-- The dict returned by pytesseract.image_to_data: parallel lists of
detected texts and their left/top/width/height pixel coordinates. -/
structure TessData where
  text : List String
  left : List ℤ
  top : List ℤ
  width : List ℤ
  height : List ℤ
deriving DecidableEq, Repr

/-- Python's `not word.strip()`: stripping all leading and trailing
whitespace leaves the empty string, i.e. every character of the word is
whitespace (vacuously so for the empty word). -/
def isBlank (w : String) : Bool := w.toList.all Char.isWhitespace

/-- Python's `n in ns` membership test on a list of indices. -/
def natMem (n : ℕ) : List ℕ → Bool
  | [] => false
  | m :: ms => if n = m then true else natMem n ms

/-- The list comprehension `[idx for idx, word in enumerate(words) if not
word.strip()]`, with i the index of the first element. -/
def irrelevantIndicesFrom (i : ℕ) : List String → List ℕ
  | [] => []
  | w :: ws =>
    if isBlank w then i :: irrelevantIndicesFrom (i + 1) ws
    else irrelevantIndicesFrom (i + 1) ws

/-- The comprehension `[x for idx, x in enumerate(xs) if keep(idx)]`, with i
the index of the first element. -/
def filterIdxFrom (keep : ℕ → Bool) : ℕ → List α → List α
  | _, [] => []
  | i, x :: xs =>
    if keep i then x :: filterIdxFrom keep (i + 1) xs
    else filterIdxFrom keep (i + 1) xs

/-- Python's 4-ary zip (truncating to the shortest list). -/
def zip4 (as : List α) (bs : List β) (cs : List γ) (ds : List δ) :
    List (α × β × γ × δ) :=
  as.zip (bs.zip (cs.zip ds))

/-- The index-keeping predicate of apply_tesseract:
`idx not in irrelevant_indices`. -/
def tessKeep (data : TessData) : ℕ → Bool :=
  fun i => !natMem i (irrelevantIndicesFrom 0 data.text)

/-- The filtered word list of apply_tesseract. -/
def tessFilteredWords (data : TessData) : List String :=
  filterIdxFrom (tessKeep data) 0 data.text

/-- The normalized box list of apply_tesseract: filter each coordinate list
by the same irrelevant indices, turn (left, top, width, height) rows into
[x, y, x + w, y + h] boxes, and normalize each against the image size. -/
def tessNormalizedBoxes (data : TessData) (imageWidth imageHeight : ℤ) :
    List (List ℤ) :=
  let left := filterIdxFrom (tessKeep data) 0 data.left
  let top := filterIdxFrom (tessKeep data) 0 data.top
  let width := filterIdxFrom (tessKeep data) 0 data.width
  let height := filterIdxFrom (tessKeep data) 0 data.height
  let actual_boxes := (zip4 left top width height).map
    (fun q => Box.mk q.1 q.2.1 (q.1 + q.2.2.1) (q.2.1 + q.2.2.2))
  actual_boxes.map (fun box => normalize_box box imageWidth imageHeight)

/-- apply_tesseract (src/docqa/ext/pipeline.py lines 34-63): filter blank
detections together with their coordinates, build and normalize the boxes,
and assert that as many words as boxes remain. -/
def apply_tesseract (data : TessData) (imageWidth imageHeight : ℤ) :
    Except PyErr (List String × List (List ℤ)) :=
  let words := tessFilteredWords data
  let normalized_boxes := tessNormalizedBoxes data imageWidth imageHeight
  if words.length = normalized_boxes.length then
    Except.ok (words, normalized_boxes)
  else
    Except.error (PyErr.assertionError "Not as many words as there are bounding boxes")

/-! ### OCR processor construction (src/docquery/ocr_processor.py)
OCRProcessor.__init__ takes one required parameter `device` besides self and
runs the availability check; each concrete subclass constructor invokes
`super().__init__()` with no arguments. Python positional-argument binding
is embedded explicitly so that missing-argument TypeErrors are modelled. -/

/-- Which concrete OCRProcessor subclass a state belongs to. -/
inductive OCRBackend
  | tesseract
  | easyocr
  | dummy
deriving DecidableEq, Repr

/-- The module-level availability flags TESSERACT_AVAILABLE and
EASYOCR_AVAILABLE (src/docquery/ocr_processor.py lines 16-35). -/
structure OCRAvail where
  tesseract : Bool
  easyocr : Bool
deriving DecidableEq, Repr

/-- Python positional-argument binding: params is the parameter list
(name, optional default value); supplying too many arguments, or omitting a
parameter that has no default, raises TypeError. -/
def bindPositional (params : List (String × Option α)) (args : List α) :
    Except PyErr (List (String × α)) :=
  match params, args with
  | [], [] => Except.ok []
  | [], _ :: _ => Except.error (PyErr.typeError "too many positional arguments")
  | (n, d) :: ps, [] =>
    match d with
    | some v => do
      let r ← bindPositional ps []
      Except.ok ((n, v) :: r)
    | none =>
      Except.error (PyErr.typeError ("missing 1 required positional argument: " ++ n))
  | (n, _) :: ps, a :: args =>
    do
      let r ← bindPositional ps args
      Except.ok ((n, a) :: r)

/-- check_if_available of each backend: TesseractProcessor raises
NoOCRReaderFound when TESSERACT_AVAILABLE is false (lines 94-99),
EasyOCRProcessor when EASYOCR_AVAILABLE is false (lines 134-139), and
DummyProcessor only logs a warning (lines 150-152). -/
def check_if_available (avail : OCRAvail) : OCRBackend → Except PyErr Unit
  | OCRBackend.tesseract =>
    if avail.tesseract then Except.ok ()
    else Except.error (PyErr.noOCRReaderFound
      "Unable to use pytesseract (OCR will be unavailable). Install tesseract to process images with OCR.")
  | OCRBackend.easyocr =>
    if avail.easyocr then Except.ok ()
    else Except.error (PyErr.noOCRReaderFound
      "Unable to use easyocr (OCR will be unavailable). Install easyocr to process images with OCR.")
  | OCRBackend.dummy => Except.ok ()

/-- The state built by a successful OCRProcessor.__init__. -/
structure OCRProcessorState where
  backend : OCRBackend
  device : Option ℤ
deriving DecidableEq, Repr

/-- OCRProcessor.__init__ (lines 38-41) invoked with the given positional
arguments: bind them against the single required parameter `device`
(values of type Optional[int], no default), store the device and run the
availability check of the concrete backend. -/
def OCRProcessor.initBase (avail : OCRAvail) (backend : OCRBackend)
    (args : List (Option ℤ)) : Except PyErr OCRProcessorState := do
  let bound ← bindPositional [("device", (none : Option (Option ℤ)))] args
  let device := (bound.map Prod.snd).headD none
  check_if_available avail backend
  Except.ok { backend := backend, device := device }

/-- TesseractProcessor.__init__ (lines 65-67): calls super().__init__()
with no arguments. -/
def TesseractProcessor.construct (avail : OCRAvail) : Except PyErr OCRProcessorState :=
  OCRProcessor.initBase avail OCRBackend.tesseract []

/-- EasyOCRProcessor.__init__ (lines 102-105): calls super().__init__()
with no arguments, then would set self.reader = None. -/
def EasyOCRProcessor.construct (avail : OCRAvail) : Except PyErr OCRProcessorState :=
  OCRProcessor.initBase avail OCRBackend.easyocr []

/-- DummyProcessor.__init__ (lines 142-145): calls super().__init__()
with no arguments, then would set self.reader = None. -/
def DummyProcessor.construct (avail : OCRAvail) : Except PyErr OCRProcessorState :=
  OCRProcessor.initBase avail OCRBackend.dummy []

/-- DummyProcessor.apply_ocr (lines 147-148): unconditionally raises. -/
def DummyProcessor.apply_ocr (_image : Unit) :
    Except PyErr (List String × List (List ℤ)) :=
  Except.error (PyErr.noOCRReaderFound
    "Unable to find any OCR engine and OCR extraction was requested")

/-! ### Preprocessing: resolution of words and boxes
(DocumentQuestionAnsweringPipeline.preprocess, src/docqa/ext/pipeline.py
lines 220-250). -/

/-- A decoded document image, as far as this embedding observes it: its
pixel size and the data the Tesseract engine would report for it. -/
structure ImageData where
  tess : TessData
  width : ℤ
  height : ℤ

/-- One structured pipeline input: a question, an optional image, and
optional explicit word_boxes (pairs of a word and its box). -/
structure PreInput where
  question : String
  image : Option ImageData
  word_boxes : Option (List (String × List ℤ))

/-- Lines 220-250 of preprocess: decode the image (requiring the vision
library when an image is present), optionally obtain words/boxes from the
feature extractor, then resolve words and boxes with the priority
word_boxes, then feature-extractor output, then Tesseract OCR, and raise
when none applies. featureExtractor models self.feature_extractor: when
present it may yield words and boxes for the image. -/
def resolveWordsBoxes (visionLoaded tesseractLoaded : Bool)
    (featureExtractor : Option (ImageData → Option (List String) × Option (List (List ℤ))))
    (input : PreInput) : Except PyErr (List String × List (List ℤ)) :=
  if input.image.isSome && !visionLoaded then
    Except.error (PyErr.valueError
      "If you provide an image, then the pipeline will run process it with PIL (Pillow), but PIL is not available. Install it with pip install Pillow.")
  else
    let image_features : Option (List String) × Option (List (List ℤ)) :=
      match input.image, featureExtractor with
      | some img, some fe => fe img
      | _, _ => (none, none)
    match input.word_boxes with
    | some wb => Except.ok (wb.map Prod.fst, wb.map Prod.snd)
    | none =>
      match image_features with
      | (some ws, some bs) => Except.ok (ws, bs)
      | _ =>
        match input.image with
        | some img =>
          if !tesseractLoaded then
            Except.error (PyErr.valueError
              "If you provide an image without word_boxes, then the pipeline will run OCR using Tesseract, but pytesseract is not available. Install it with pip install pytesseract.")
          else
            apply_tesseract img.tess img.width img.height
        | none =>
          Except.error (PyErr.valueError
            "You must provide an image or word_boxes. If you provide an image, the pipeline will automatically run OCR to derive words and boxes")

/-! ### Parameter sanitization
(DocumentQuestionAnsweringPipeline._sanitize_parameters,
src/docqa/ext/pipeline.py lines 85-123). -/

/-- The keyword arguments recognized by _sanitize_parameters; None models
an argument the caller did not supply. -/
structure CallParams where
  padding : Option String
  doc_stride : Option ℤ
  max_question_len : Option ℤ
  lang : Option String
  tesseract_config : Option String
  max_answer_len : Option ℤ
  max_seq_len : Option ℤ
  top_k : Option ℤ
  handle_impossible_answer : Option Bool

/-- The preprocess_params dict assembled by _sanitize_parameters. -/
structure PreprocessParams where
  padding : Option String
  doc_stride : Option ℤ
  max_question_len : Option ℤ
  max_seq_len : Option ℤ
  lang : Option String
  tesseract_config : Option String

/-- The postprocess_params dict assembled by _sanitize_parameters. -/
structure PostprocessParams where
  top_k : Option ℤ
  max_answer_len : Option ℤ
  handle_impossible_answer : Option Bool

/-- The method _sanitize_parameters: copy every supplied option into the stage
parameter dicts, raising ValueError when top_k < 1 or max_answer_len < 1
(top_k is examined first, as in the source). -/
def sanitize_parameters (p : CallParams) :
    Except PyErr (PreprocessParams × PostprocessParams) :=
  let pre : PreprocessParams :=
    { padding := p.padding, doc_stride := p.doc_stride,
      max_question_len := p.max_question_len, max_seq_len := p.max_seq_len,
      lang := p.lang, tesseract_config := p.tesseract_config }
  let checkMAL : Option ℤ → Except PyErr (PreprocessParams × PostprocessParams) :=
    fun tk =>
      match p.max_answer_len with
      | some m =>
        if m < 1 then
          Except.error (PyErr.valueError
            ("max_answer_len parameter should be >= 1 (got " ++ toString m))
        else
          Except.ok (pre, ⟨tk, some m, p.handle_impossible_answer⟩)
      | none => Except.ok (pre, ⟨tk, none, p.handle_impossible_answer⟩)
  match p.top_k with
  | some k =>
    if k < 1 then
      Except.error (PyErr.valueError
        ("top_k parameter should be >= 1 (got " ++ toString k ++ ")"))
    else checkMAL (some k)
  | none => checkMAL none

/-! ### Answer-span selection and postprocessing
(DocumentQuestionAnsweringPipeline.postprocess, src/docqa/ext/pipeline.py
lines 331-371, over the answer-span selection algorithm of qa_helpers). -/

/-- One answer record: {score, answer, start, end}. Logit scores are
modelled as integers; end is a reserved word in Lean and is rendered
end_. -/
structure Answer where
  score : ℤ
  answer : String
  start : ℕ
  end_ : ℕ
deriving DecidableEq, Repr

/-- One chunk of model output as postprocess receives it: the start and end
logit vectors together with the auxiliary fields reattached by _forward. -/
structure ChunkOutput where
  start_logits : List ℤ
  end_logits : List ℤ
  p_mask : List Bool
  attention_mask : Option (List ℕ)
  word_ids : List (Option ℕ)
  words : List String
deriving DecidableEq, Repr

/-- The large negative sentinel used to mask logits. -/
def LARGE_NEG : ℤ := -1000000

/-- Modelled from the spec: select_starts_ends lives in
docqa/ext/qa_helpers.py, which is not among the provided source files;
steps 1 and 3 of the answer-span selection algorithm of the specification.
Masking: positions that are not attended to (attention mask 0) or whose
maskable flag is set have their logits replaced by a large negative
sentinel before scoring. -/
def maskLogits (logits : List ℤ) (p_mask : List Bool)
    (attention_mask : Option (List ℕ)) : List ℤ :=
  logits.enum.map (fun p =>
    let masked := p_mask.getD p.1 false ||
      (match attention_mask with
       | some a => decide (a.getD p.1 1 = 0)
       | none => false)
    if masked then LARGE_NEG else p.2)

/-- Modelled from the spec: all candidate (start, end) index pairs over n
token positions with start ≤ end and end - start < max_answer_len, in
original (start-major) order. -/
def candPairs (n : ℕ) (max_answer_len : ℕ) : List (ℕ × ℕ) :=
  (List.range n).flatMap (fun s =>
    ((List.range n).filter (fun e => decide (s ≤ e) && decide (e - s < max_answer_len))).map
      (fun e => (s, e)))

/-- Stable descending insertion by key: x is placed before the first
element whose key is at most the key of x, so elements inserted earlier
(to its right in the original order) with an equal key stay behind it. -/
def insertDescBy (key : α → ℤ) (x : α) : List α → List α
  | [] => [x]
  | y :: ys => if key y ≤ key x then x :: y :: ys else y :: insertDescBy key x ys

/-- Stable sort by key, descending (Python sorted(..., reverse=True)). -/
def sortDescBy (key : α → ℤ) : List α → List α
  | [] => []
  | x :: xs => insertDescBy key x (sortDescBy key xs)

/-- Modelled from the spec: the candidate (start, end, score) triples of one
chunk, scored as masked start logit plus masked end logit and cut to the
top_k best, descending, ties broken by original ordering. -/
def selectTriples (start_logits end_logits : List ℤ) (p_mask : List Bool)
    (attention_mask : Option (List ℕ)) (top_k : ℕ) (max_answer_len : ℕ) :
    List (ℕ × ℕ × ℤ) :=
  let ms := maskLogits start_logits p_mask attention_mask
  let me := maskLogits end_logits p_mask attention_mask
  let cands := (candPairs start_logits.length max_answer_len).map
    (fun p => (p.1, p.2, ms.getD p.1 0 + me.getD p.2 0))
  (sortDescBy (fun t => t.2.2) cands).take top_k

/-- Modelled from the spec: select_starts_ends (docqa/ext/qa_helpers.py is
not among the provided source files). Returns the selected candidate
triples of the chunk together with the updated running minimum null score;
the null (no-answer) score of the chunk is the sum of the start and end
logits at the classification-token position 0. The handle_impossible_answer
flag is part of the signature but does not alter the selection. -/
def select_starts_ends (start_logits end_logits : List ℤ) (p_mask : List Bool)
    (attention_mask : Option (List ℕ)) (min_null_score : ℤ) (top_k : ℕ)
    (_handle_impossible_answer : Bool) (max_answer_len : ℕ) :
    List (ℕ × ℕ × ℤ) × ℤ :=
  (selectTriples start_logits end_logits p_mask attention_mask top_k max_answer_len,
   min min_null_score (start_logits.getD 0 0 + end_logits.getD 0 0))

/-- The per-chunk loop body of postprocess (lines 335-363): keep the
selected triples whose boundary tokens both map to a word, and build an
answer record joining words[word_start : word_end + 1] with spaces. -/
def chunkSurvivors (o : ChunkOutput) (top_k : ℕ) (max_answer_len : ℕ) : List Answer :=
  (selectTriples o.start_logits o.end_logits o.p_mask o.attention_mask top_k
    max_answer_len).filterMap (fun t =>
      match o.word_ids.getD t.1 none, o.word_ids.getD t.2.1 none with
      | some ws, some we =>
        some { score := t.2.2,
               answer := String.intercalate " " ((o.words.drop ws).take (we + 1 - ws)),
               start := ws, end_ := we }
      | _, _ => none)

/-- The for-loop of postprocess over all chunk outputs, threading the
running minimum null score through select_starts_ends and accumulating the
surviving answers. -/
def postprocessLoop (top_k : ℕ) (handle_impossible_answer : Bool)
    (max_answer_len : ℕ) :
    List ChunkOutput → ℤ → List Answer → List Answer × ℤ
  | [], m, acc => (acc, m)
  | o :: rest, m, acc =>
    let res := select_starts_ends o.start_logits o.end_logits o.p_mask
      o.attention_mask m top_k handle_impossible_answer max_answer_len
    let newAnswers := res.1.filterMap (fun t =>
      match o.word_ids.getD t.1 none, o.word_ids.getD t.2.1 none with
      | some ws, some we =>
        some { score := t.2.2,
               answer := String.intercalate " " ((o.words.drop ws).take (we + 1 - ws)),
               start := ws, end_ := we }
      | _, _ => none)
    postprocessLoop top_k handle_impossible_answer max_answer_len rest res.2
      (acc ++ newAnswers)

/-- The result of postprocess: a bare answer record when exactly one answer
remains, otherwise the list of answers. -/
inductive PostResult
  | single (a : Answer)
  | list (l : List Answer)
deriving DecidableEq, Repr

/-- Lines 369-371 of postprocess: if len(answers) == 1 return answers[0],
else return answers. -/
def listToResult : List Answer → PostResult
  | [a] => PostResult.single a
  | l => PostResult.list l

/-- postprocess (lines 331-371): run the selection on every chunk with the
running minimum null score starting at the sentinel 1000000, append the
synthetic no-answer candidate when handle_impossible_answer is set, sort
all candidates by score descending, truncate to top_k, and unwrap a
singleton list. -/
def postprocess (model_outputs : List ChunkOutput) (top_k : ℕ)
    (handle_impossible_answer : Bool) (max_answer_len : ℕ) : PostResult :=
  let resLoop := postprocessLoop top_k handle_impossible_answer max_answer_len
    model_outputs 1000000 []
  let answers := resLoop.1
  let min_null_score := resLoop.2
  let answers :=
    if handle_impossible_answer then
      answers ++ [{ score := min_null_score, answer := "", start := 0, end_ := 0 }]
    else answers
  let answers := (sortDescBy Answer.score answers).take top_k
  listToResult answers

/-- The chunk's null (no-answer) score: the logits at the classification
token position 0. -/
def chunkNullScore (o : ChunkOutput) : ℤ :=
  o.start_logits.getD 0 0 + o.end_logits.getD 0 0

/-- The minimum null score observed across all chunks, starting from the
sentinel 1000000. -/
def minNullScore (outs : List ChunkOutput) : ℤ :=
  outs.foldl (fun m o => min m (chunkNullScore o)) 1000000

/-- All surviving candidate answers merged across chunks, in chunk order. -/
def mergedAnswers (outs : List ChunkOutput) (top_k max_answer_len : ℕ) : List Answer :=
  (outs.map (fun o => chunkSurvivors o top_k max_answer_len)).flatten

/-- The full candidate pool of postprocess before sorting and truncation:
the merged per-chunk survivors, followed by the synthetic no-answer
candidate exactly when handle_impossible_answer is set. -/
def answerPool (outs : List ChunkOutput) (top_k : ℕ)
    (handle_impossible_answer : Bool) (max_answer_len : ℕ) : List Answer :=
  mergedAnswers outs top_k max_answer_len ++
    (if handle_impossible_answer then
      [{ score := minNullScore outs, answer := "", start := 0, end_ := 0 }]
    else [])

/-- View of a postprocess result as the list of answers it carries. -/
def resultList : PostResult → List Answer
  | PostResult.single a => [a]
  | PostResult.list l => l

/-- Whether a postprocess result is a list (rather than a bare record). -/
def isListResult : PostResult → Bool
  | PostResult.single _ => false
  | PostResult.list _ => true

/-! ### Pipeline factory (get_pipeline, src/docqa/pipeline.py lines 41-80)
Line 70 of the source, `pipeline_kwargs = {device : device)}`, is a Python
syntax error (an unmatched closing parenthesis inside a dict display), so
the module cannot be imported and no call of get_pipeline can run. The
checkpoint/revision resolution of lines 41-68, which is what claim C8
describes, is embedded below. -/

/-- The built-in default checkpoint name (line 15). -/
def CHECKPOINT : String := "impira/layoutlm-document-qa"

/-- The built-in pinned revision hash (line 16). -/
def REVISION : String := "02daaaf614d4ae08fa6a1d51693baaf7de819585"

/-- What the first half of get_pipeline resolves: the checkpoint, the
revision, whether add_prefix_space is forced onto the tokenizer, and
whether the specialized LayoutLMForQuestionAnswering wrapper is loaded
directly (versus passing the checkpoint string through). -/
structure FactoryResolution where
  checkpoint : String
  revision : Option String
  add_prefix_space : Bool
  loadsQAWrapperDirectly : Bool
deriving DecidableEq, Repr

/-- Lines 41-68 of get_pipeline: default a missing checkpoint to
CHECKPOINT; default a missing revision to REVISION exactly when the
resolved checkpoint equals CHECKPOINT; for the default checkpoint force
add_prefix_space and load the QA model wrapper directly. -/
def get_pipeline_resolve (checkpoint revision : Option String) : FactoryResolution :=
  let checkpoint :=
    match checkpoint with
    | none => CHECKPOINT
    | some c => c
  let revision :=
    if checkpoint == CHECKPOINT && revision.isNone then some REVISION
    else revision
  { checkpoint := checkpoint,
    revision := revision,
    add_prefix_space := checkpoint == CHECKPOINT,
    loadsQAWrapperDirectly := checkpoint == CHECKPOINT }

/-! ### The pipeline call path
The host framework's ChunkPipeline.__call__ first runs
_sanitize_parameters, then preprocessing/forward (abstracted here into one
chunk-producing function), then postprocess with the sanitized parameters,
applying the source defaults top_k=1, handle_impossible_answer=False,
max_answer_len=15 for parameters the caller did not supply. -/

/-- One pipeline invocation, parametric in the whole
preprocess-plus-forward stage so that theorems can quantify over it. -/
def pipelineCall (preprocessForward : PreprocessParams → Except PyErr (List ChunkOutput))
    (p : CallParams) : Except PyErr PostResult := do
  let params ← sanitize_parameters p
  let chunks ← preprocessForward params.1
  Except.ok (postprocess chunks (params.2.top_k.getD 1).toNat
    (params.2.handle_impossible_answer.getD false)
    (params.2.max_answer_len.getD 15).toNat)

/-! ### Helper lemmas about the index-based filtering -/

theorem natMem_iff (n : ℕ) (l : List ℕ) : natMem n l = true ↔ n ∈ l := by
  induction l with
  | nil => simp [natMem]
  | cons m ms ih =>
    by_cases h : n = m <;> simp [natMem, h, ih]

theorem irrelevantIndicesFrom_ge (k : ℕ) (ws : List String) :
    ∀ n ∈ irrelevantIndicesFrom k ws, k ≤ n := by
  induction ws generalizing k with
  | nil => simp [irrelevantIndicesFrom]
  | cons w ws ih =>
    intro n hn
    simp only [irrelevantIndicesFrom] at hn
    by_cases hb : isBlank w
    · simp only [hb, if_pos, List.mem_cons] at hn
      rcases hn with rfl | hn
      · exact Nat.le_refl _
      · exact Nat.le_trans (Nat.le_succ k) (ih (k + 1) n hn)
    · simp only [hb, if_neg, Bool.false_eq_true, not_false_iff] at hn
      exact Nat.le_trans (Nat.le_succ k) (ih (k + 1) n hn)

theorem natMem_irrelevant_lt (k n : ℕ) (ws : List String) (h : n < k) :
    natMem n (irrelevantIndicesFrom k ws) = false := by
  by_contra hc
  rw [Bool.not_eq_false, natMem_iff] at hc
  exact absurd (irrelevantIndicesFrom_ge k ws n hc) (by omega)

theorem filterIdxFrom_congr (k1 k2 : ℕ → Bool) (i : ℕ) (xs : List α)
    (h : ∀ j, i ≤ j → k1 j = k2 j) :
    filterIdxFrom k1 i xs = filterIdxFrom k2 i xs := by
  induction xs generalizing i with
  | nil => rfl
  | cons x xs ih =>
    simp only [filterIdxFrom]
    rw [h i (Nat.le_refl i), ih (i + 1) (fun j hj => h j (by omega))]

theorem filterIdxFrom_length_congr (keep : ℕ → Bool) (i : ℕ) (xs : List α)
    (ys : List β) (h : xs.length = ys.length) :
    (filterIdxFrom keep i xs).length = (filterIdxFrom keep i ys).length := by
  induction xs generalizing i ys with
  | nil =>
    cases ys with
    | nil => rfl
    | cons y ys => simp at h
  | cons x xs ih =>
    cases ys with
    | nil => simp at h
    | cons y ys =>
      simp only [List.length_cons, Nat.add_right_cancel_iff] at h
      by_cases hk : keep i <;>
        simp [filterIdxFrom, hk, ih (i + 1) ys h]

theorem filterIdx_irrelevant_eq_filter (k : ℕ) (ws : List String) :
    filterIdxFrom (fun i => !natMem i (irrelevantIndicesFrom k ws)) k ws =
      ws.filter (fun w => !isBlank w) := by
  induction ws generalizing k with
  | nil => rfl
  | cons w ws ih =>
    by_cases hb : isBlank w
    · have hirr : irrelevantIndicesFrom k (w :: ws) =
          k :: irrelevantIndicesFrom (k + 1) ws := by
        simp [irrelevantIndicesFrom, hb]
      have hkeep : (!natMem k (irrelevantIndicesFrom k (w :: ws))) = false := by
        simp [hirr, natMem]
      simp only [filterIdxFrom, hkeep, Bool.false_eq_true, if_neg, not_false_iff]
      rw [filterIdxFrom_congr _ (fun i => !natMem i (irrelevantIndicesFrom (k + 1) ws))
        (k + 1) ws (fun j hj => by
          have hjk : ¬ j = k := by omega
          simp [hirr, natMem, hjk])]
      rw [ih (k + 1)]
      simp [List.filter, hb]
    · have hirr : irrelevantIndicesFrom k (w :: ws) =
          irrelevantIndicesFrom (k + 1) ws := by
        simp [irrelevantIndicesFrom, hb]
      have hkeep : (!natMem k (irrelevantIndicesFrom k (w :: ws))) = true := by
        simp [hirr, natMem_irrelevant_lt (k + 1) k ws (by omega)]
      simp only [filterIdxFrom, hkeep, if_pos]
      rw [hirr, ih (k + 1)]
      simp [List.filter, hb]

theorem tessFilteredWords_eq_filter (data : TessData) :
    tessFilteredWords data = data.text.filter (fun w => !isBlank w) :=
  filterIdx_irrelevant_eq_filter 0 data.text

theorem tessNormalizedBoxes_length (data : TessData) (W H : ℤ)
    (hl : data.left.length = data.text.length)
    (ht : data.top.length = data.text.length)
    (hw : data.width.length = data.text.length)
    (hh : data.height.length = data.text.length) :
    (tessNormalizedBoxes data W H).length = (tessFilteredWords data).length := by
  simp only [tessNormalizedBoxes, zip4, List.length_map, List.length_zip]
  rw [filterIdxFrom_length_congr (tessKeep data) 0 data.left data.text hl,
    filterIdxFrom_length_congr (tessKeep data) 0 data.top data.text ht,
    filterIdxFrom_length_congr (tessKeep data) 0 data.width data.text hw,
    filterIdxFrom_length_congr (tessKeep data) 0 data.height data.text hh]
  simp [tessFilteredWords]

/-! ### Helper lemmas about the stable descending sort -/

theorem length_insertDescBy (key : α → ℤ) (x : α) (l : List α) :
    (insertDescBy key x l).length = l.length + 1 := by
  induction l with
  | nil => rfl
  | cons y ys ih =>
    by_cases h : key y ≤ key x <;> simp [insertDescBy, h, ih]

theorem length_sortDescBy (key : α → ℤ) (l : List α) :
    (sortDescBy key l).length = l.length := by
  induction l with
  | nil => rfl
  | cons x xs ih => simp [sortDescBy, length_insertDescBy, ih]

theorem mem_insertDescBy (key : α → ℤ) (x : α) (l : List α) (a : α) :
    a ∈ insertDescBy key x l ↔ a = x ∨ a ∈ l := by
  induction l with
  | nil => simp [insertDescBy]
  | cons y ys ih =>
    by_cases h : key y ≤ key x
    · simp [insertDescBy, h]
    · simp [insertDescBy, h, ih]
      tauto

theorem perm_insertDescBy (key : α → ℤ) (x : α) (l : List α) :
    List.Perm (insertDescBy key x l) (x :: l) := by
  induction l with
  | nil => simp [insertDescBy]
  | cons y ys ih =>
    by_cases h : key y ≤ key x
    · simp [insertDescBy, h]
    · simp only [insertDescBy, h, if_neg, not_false_iff]
      exact List.Perm.trans (List.Perm.cons y ih) (List.Perm.swap x y ys)

theorem perm_sortDescBy (key : α → ℤ) (l : List α) :
    List.Perm (sortDescBy key l) l := by
  induction l with
  | nil => exact List.Perm.refl _
  | cons x xs ih =>
    exact List.Perm.trans (perm_insertDescBy key x (sortDescBy key xs))
      (List.Perm.cons x ih)

theorem pairwise_insertDescBy (key : α → ℤ) (x : α) (l : List α)
    (h : l.Pairwise (fun a b => key b ≤ key a)) :
    (insertDescBy key x l).Pairwise (fun a b => key b ≤ key a) := by
  induction l with
  | nil => simp [insertDescBy]
  | cons y ys ih =>
    rcases List.pairwise_cons.mp h with ⟨hy, hys⟩
    by_cases hk : key y ≤ key x
    · simp only [insertDescBy, hk, if_pos]
      refine List.pairwise_cons.mpr ⟨?_, h⟩
      intro b hb
      rcases List.mem_cons.mp hb with rfl | hb
      · exact hk
      · exact le_trans (hy b hb) hk
    · simp only [insertDescBy, hk, if_neg, not_false_iff]
      refine List.pairwise_cons.mpr ⟨?_, ih hys⟩
      intro b hb
      rcases (mem_insertDescBy key x ys b).mp hb with rfl | hb
      · omega
      · exact hy b hb

theorem pairwise_sortDescBy (key : α → ℤ) (l : List α) :
    (sortDescBy key l).Pairwise (fun a b => key b ≤ key a) := by
  induction l with
  | nil => simp [sortDescBy]
  | cons x xs ih => exact pairwise_insertDescBy key x (sortDescBy key xs) ih

/-! ### Helper lemmas about the postprocess loop -/

theorem postprocessLoop_eq (top_k : ℕ) (hia : Bool) (mal : ℕ)
    (outs : List ChunkOutput) (m : ℤ) (acc : List Answer) :
    postprocessLoop top_k hia mal outs m acc =
      (acc ++ mergedAnswers outs top_k mal,
       outs.foldl (fun x o => min x (chunkNullScore o)) m) := by
  induction outs generalizing m acc with
  | nil => simp [postprocessLoop, mergedAnswers]
  | cons o rest ih =>
    simp only [postprocessLoop, ih, mergedAnswers, List.map_cons, List.flatten_cons,
      List.foldl_cons]
    refine Prod.ext ?_ rfl
    simp only [select_starts_ends, chunkSurvivors]
    rw [List.append_assoc]

theorem resultList_listToResult (l : List Answer) :
    resultList (listToResult l) = l := by
  match l with
  | [] => rfl
  | [a] => rfl
  | a :: b :: t => rfl

theorem isListResult_listToResult (l : List Answer) :
    isListResult (listToResult l) = false ↔ l.length = 1 := by
  match l with
  | [] => simp [listToResult, isListResult]
  | [a] => simp [listToResult, isListResult]
  | a :: b :: t => simp [listToResult, isListResult]

/-- The central characterization of postprocess: it returns the candidate
pool sorted by score descending, truncated to top_k, unwrapped when a
single answer remains. -/
theorem postprocess_eq (outs : List ChunkOutput) (top_k : ℕ) (hia : Bool)
    (mal : ℕ) :
    postprocess outs top_k hia mal =
      listToResult ((sortDescBy Answer.score (answerPool outs top_k hia mal)).take top_k) := by
  simp only [postprocess, postprocessLoop_eq, answerPool, minNullScore, List.nil_append]
  cases hia <;> simp

/-! ### Concrete inputs used by counterexamples and witnesses -/

/-- A two-token chunk over the single word Paris; the second token has no
associated word. -/
def demoChunk : ChunkOutput :=
  { start_logits := [5, 3], end_logits := [4, 2], p_mask := [false, false],
    attention_mask := some [1, 1], word_ids := [some 0, none],
    words := ["Paris"] }

/-- A one-token chunk whose only token maps to no word. -/
def noneChunk : ChunkOutput :=
  { start_logits := [1], end_logits := [1], p_mask := [false],
    attention_mask := some [1], word_ids := [none], words := [] }

/-- Tesseract data with one real word and one blank detection. -/
def demoTess : TessData :=
  { text := ["hi", " "], left := [1, 2], top := [3, 4],
    width := [5, 6], height := [7, 8] }

/-- A call supplying top_k = 0 and nothing else. -/
def cpBadTopK : CallParams :=
  { padding := none, doc_stride := none, max_question_len := none,
    lang := none, tesseract_config := none, max_answer_len := none,
    max_seq_len := none, top_k := some 0, handle_impossible_answer := none }

/-- A call supplying max_answer_len = 0 and nothing else. -/
def cpBadMAL : CallParams :=
  { padding := none, doc_stride := none, max_question_len := none,
    lang := none, tesseract_config := none, max_answer_len := some 0,
    max_seq_len := none, top_k := none, handle_impossible_answer := none }

/-! ### Claim theorems -/

/-- C1, counterexample: the claim says every normalized component is
round(1000 * coordinate / dimension) and the result always lies in
[0, 1000]. The pipeline's normalize_box does not clamp, so the box
[-1, 0, 0, 0] on a 200 x 100 image yields the out-of-range component -5;
and both normalize_box variants truncate instead of rounding, so the box
[2, 2, 2, 2] on a 3 x 3 image yields 666 where rounding (as
spec_normalize_box computes) yields 667. -/
theorem C1_normalize_box_counterexample :
    normalize_box ⟨-1, 0, 0, 0⟩ 200 100 = [-5, 0, 0, 0] ∧
    OCRProcessor.normalize_box ⟨2, 2, 2, 2⟩ 3 3 = [666, 666, 666, 666] ∧
    spec_normalize_box ⟨2, 2, 2, 2⟩ 3 3 = [667, 667, 667, 667] := by
  refine ⟨?_, ?_, ?_⟩
  · norm_num [normalize_box, pyTrunc, Int.ceil_eq_iff]
  · norm_num [OCRProcessor.normalize_box, normalize_box, pyTrunc]
  · norm_num [spec_normalize_box, specRound]

/-- C1, amended: box normalization computes each component as
int(1000 * coordinate / dimension) (truncation toward zero, not rounding);
OCRProcessor.normalize_box clamps each component with max(min(c, 1000), 0)
so its result always lies in [0, 1000], while the pipeline's normalize_box
performs no clamping; box [0, 0, 100, 50] on a 200 x 100 image normalizes
to [0, 0, 500, 500] under both. -/
theorem C1_normalize_box_amended (box : Box) (width height : ℤ) :
    OCRProcessor.normalize_box box width height =
      (normalize_box box width height).map (fun c => max (min c 1000) 0) ∧
    (∀ c ∈ OCRProcessor.normalize_box box width height, 0 ≤ c ∧ c ≤ 1000) ∧
    normalize_box ⟨0, 0, 100, 50⟩ 200 100 = [0, 0, 500, 500] ∧
    OCRProcessor.normalize_box ⟨0, 0, 100, 50⟩ 200 100 = [0, 0, 500, 500] := by
  refine ⟨rfl, ?_, ?_, ?_⟩
  · intro c hc
    rcases List.mem_map.mp hc with ⟨d, _, rfl⟩
    constructor
    · exact le_max_right _ _
    · exact max_le (min_le_right _ _) (by norm_num)
  · norm_num [normalize_box, pyTrunc]
  · norm_num [OCRProcessor.normalize_box, normalize_box, pyTrunc]

/-- C2, counterexample: the claim says a call with top_k > 1 always
returns a list; on a chunk with exactly one surviving candidate and
top_k = 2 the code returns a bare single answer record instead. -/
theorem C2_postprocess_counterexample :
    postprocess [demoChunk] 2 false 15 =
      PostResult.single { score := 9, answer := "Paris", start := 0, end_ := 0 } := by
  decide

/-- C2, amended: postprocess returns a bare single Answer record exactly
when exactly one answer remains after merging, sorting and truncating to
top_k (whatever top_k is); otherwise it returns a list whose length is
min top_k (number of candidates), hence at most top_k. In particular
top_k = 1 yields a single record whenever at least one candidate survives,
and an empty list when none does. -/
theorem C2_postprocess_single_vs_list (outs : List ChunkOutput)
    (top_k mal : ℕ) (hia : Bool) :
    (resultList (postprocess outs top_k hia mal)).length =
      min top_k (answerPool outs top_k hia mal).length ∧
    (isListResult (postprocess outs top_k hia mal) = false ↔
      min top_k (answerPool outs top_k hia mal).length = 1) := by
  constructor
  · rw [postprocess_eq, resultList_listToResult, List.length_take, length_sortDescBy]
  · rw [postprocess_eq, isListResult_listToResult, List.length_take, length_sortDescBy]

/-- C3: when both explicit word_boxes and an image are supplied (and the
vision library is loaded), preprocessing resolves the words and boxes to
exactly the caller-supplied word texts and box values, in order, for every
image content, every feature extractor and even when Tesseract is not
loaded at all, so OCR is never invoked. -/
theorem C3_word_boxes_used_verbatim (tesseractLoaded : Bool)
    (fe : Option (ImageData → Option (List String) × Option (List (List ℤ))))
    (q : String) (img : ImageData) (wb : List (String × List ℤ)) :
    resolveWordsBoxes true tesseractLoaded fe
      { question := q, image := some img, word_boxes := some wb } =
      Except.ok (wb.map Prod.fst, wb.map Prod.snd) := rfl

/-- C4: a call supplying top_k < 1, or one supplying max_answer_len < 1
(with an acceptable top_k), makes the pipeline call fail with the
ValueError of _sanitize_parameters, for every possible preprocess/forward
stage, so no OCR, preprocessing or model work is performed. -/
theorem C4_invalid_parameter_sanitization
    (f g : PreprocessParams → Except PyErr (List ChunkOutput))
    (p q : CallParams) (k m : ℤ)
    (hpk : p.top_k = some k) (hk : k < 1)
    (hqm : q.max_answer_len = some m) (hm : m < 1)
    (hqk : ∀ k2 ∈ q.top_k, 1 ≤ k2) :
    pipelineCall f p = Except.error (PyErr.valueError
      ("top_k parameter should be >= 1 (got " ++ toString k ++ ")")) ∧
    pipelineCall g q = Except.error (PyErr.valueError
      ("max_answer_len parameter should be >= 1 (got " ++ toString m)) := by
  constructor
  · simp only [pipelineCall, sanitize_parameters, hpk, hk, if_pos]
    rfl
  · rcases hq : q.top_k with _ | k2
    · simp only [pipelineCall, sanitize_parameters, hq, hqm, hm, if_pos]
      rfl
    · have h1 : 1 ≤ k2 := hqk k2 (by simp [hq])
      have h2 : ¬ k2 < 1 := by omega
      simp only [pipelineCall, sanitize_parameters, hq, hqm, hm, h2, if_pos,
        if_neg, not_false_iff]
      rfl

/-- Witness for C4 at top_k = 0 and max_answer_len = 0. -/
theorem C4_witness :
    pipelineCall (fun _ => Except.ok []) cpBadTopK = Except.error (PyErr.valueError
      ("top_k parameter should be >= 1 (got " ++ toString (0 : ℤ) ++ ")")) ∧
    pipelineCall (fun _ => Except.ok []) cpBadMAL = Except.error (PyErr.valueError
      ("max_answer_len parameter should be >= 1 (got " ++ toString (0 : ℤ))) :=
  C4_invalid_parameter_sanitization (fun _ => Except.ok []) (fun _ => Except.ok [])
    cpBadTopK cpBadMAL 0 0 rfl (by decide) rfl (by decide) (by simp [cpBadMAL])

/-- C5: postprocess equals the merge of all per-chunk surviving candidates,
followed — exactly when handle_impossible_answer is set — by one synthetic
no-answer candidate with start = 0, end = 0, answer = "" scored with the
minimum null score across all chunks (sentinel 1000000), sorted descending
by score and truncated to top_k; the number of returned answers is
min top_k (number of candidates), i.e. exactly the number available when
fewer than top_k exist, and the returned sequence is sorted descending. -/
theorem C5_postprocess_merge_sort_truncate (outs : List ChunkOutput)
    (top_k mal : ℕ) (hia : Bool) :
    postprocess outs top_k hia mal =
      listToResult ((sortDescBy Answer.score
        (mergedAnswers outs top_k mal ++
          (if hia then
            [{ score := minNullScore outs, answer := "", start := 0, end_ := 0 }]
          else []))).take top_k) ∧
    (resultList (postprocess outs top_k hia mal)).length =
      min top_k (answerPool outs top_k hia mal).length ∧
    (resultList (postprocess outs top_k hia mal)).Pairwise
      (fun a b => b.score ≤ a.score) := by
  refine ⟨postprocess_eq outs top_k hia mal, ?_, ?_⟩
  · rw [postprocess_eq, resultList_listToResult, List.length_take, length_sortDescBy]
  · rw [postprocess_eq, resultList_listToResult]
    exact List.Pairwise.take
      (pairwise_sortDescBy Answer.score (answerPool outs top_k hia mal))

/-- C6: for Tesseract data whose coordinate lists are as long as its text
list, apply_tesseract passes its length assertion and returns words and
boxes of equal length, and no returned word is empty or all-whitespace. -/
theorem C6_words_boxes_aligned_no_blanks (data : TessData) (W H : ℤ)
    (hl : data.left.length = data.text.length)
    (ht : data.top.length = data.text.length)
    (hw : data.width.length = data.text.length)
    (hh : data.height.length = data.text.length) :
    apply_tesseract data W H =
      Except.ok (tessFilteredWords data, tessNormalizedBoxes data W H) ∧
    (tessFilteredWords data).length = (tessNormalizedBoxes data W H).length ∧
    (tessFilteredWords data).all (fun w => !isBlank w) = true := by
  have hlen := tessNormalizedBoxes_length data W H hl ht hw hh
  refine ⟨?_, hlen.symm, ?_⟩
  · simp [apply_tesseract, hlen.symm]
  · rw [tessFilteredWords_eq_filter, List.all_eq_true]
    intro w hwmem
    exact (List.mem_filter.mp hwmem).2

/-- Witness for C6 on concrete Tesseract data with one blank detection. -/
theorem C6_witness :
    apply_tesseract demoTess 100 200 =
      Except.ok (tessFilteredWords demoTess, tessNormalizedBoxes demoTess 100 200) ∧
    (tessFilteredWords demoTess).length = (tessNormalizedBoxes demoTess 100 200).length ∧
    (tessFilteredWords demoTess).all (fun w => !isBlank w) = true :=
  C6_words_boxes_aligned_no_blanks demoTess 100 200 rfl rfl rfl rfl

/-- C7: the claim says construction of a concrete OCR backend runs the
availability check and raises the no-OCR-reader error only when the
dependency is missing, and that the fallback's construction always
succeeds. In the code every concrete constructor calls the base
initializer without its required device argument, so construction raises
TypeError even with every dependency available, and the fallback never
constructs either. -/
theorem C7_construction_type_errors_despite_availability :
    TesseractProcessor.construct ⟨true, true⟩ =
      Except.error (PyErr.typeError "missing 1 required positional argument: device") ∧
    EasyOCRProcessor.construct ⟨true, true⟩ =
      Except.error (PyErr.typeError "missing 1 required positional argument: device") ∧
    DummyProcessor.construct ⟨true, true⟩ =
      Except.error (PyErr.typeError "missing 1 required positional argument: device") ∧
    DummyProcessor.apply_ocr () =
      Except.error (PyErr.noOCRReaderFound
        "Unable to find any OCR engine and OCR extraction was requested") :=
  ⟨rfl, rfl, rfl, rfl⟩

/-- C8: the checkpoint/revision resolution of get_pipeline (lines 41-68 of
src/docqa/pipeline.py, the portion before the syntax error on line 70): a
missing checkpoint defaults to the built-in name, the pinned revision is
applied exactly when the resolved checkpoint is the built-in default and
no revision was supplied, and add_prefix_space and the direct QA-wrapper
load happen exactly when the resolved checkpoint is the built-in
default. -/
theorem C8_get_pipeline_resolution (cp rev : Option String) :
    (get_pipeline_resolve cp rev).checkpoint = cp.getD CHECKPOINT ∧
    (get_pipeline_resolve cp rev).revision =
      (if (get_pipeline_resolve cp rev).checkpoint = CHECKPOINT ∧ rev = none
       then some REVISION else rev) ∧
    ((get_pipeline_resolve cp rev).add_prefix_space = true ↔
      (get_pipeline_resolve cp rev).checkpoint = CHECKPOINT) ∧
    ((get_pipeline_resolve cp rev).loadsQAWrapperDirectly = true ↔
      (get_pipeline_resolve cp rev).checkpoint = CHECKPOINT) := by
  cases cp with
  | none =>
    cases rev <;> simp [get_pipeline_resolve]
  | some c =>
    by_cases hc : c = CHECKPOINT
    · cases rev <;> simp [get_pipeline_resolve, hc]
    · cases rev <;> simp [get_pipeline_resolve, hc]

/-- C9: however the availability flags are set, constructing any of the
three concrete OCR processors fails with the missing-required-argument
TypeError, because each subclass constructor invokes the base initializer
without supplying its required device parameter. -/
theorem C9_all_constructors_raise_missing_argument (avail : OCRAvail) :
    TesseractProcessor.construct avail =
      Except.error (PyErr.typeError "missing 1 required positional argument: device") ∧
    EasyOCRProcessor.construct avail =
      Except.error (PyErr.typeError "missing 1 required positional argument: device") ∧
    DummyProcessor.construct avail =
      Except.error (PyErr.typeError "missing 1 required positional argument: device") :=
  ⟨rfl, rfl, rfl⟩

/-- C10: with handle_impossible_answer false, when every candidate triple
selected in every chunk has a boundary token that maps to no word, the
postprocess result is the empty list (not a bare record, not an error). -/
theorem C10_no_survivors_empty_list (outs : List ChunkOutput) (top_k mal : ℕ)
    (h : ∀ o ∈ outs,
      ∀ t ∈ selectTriples o.start_logits o.end_logits o.p_mask
        o.attention_mask top_k mal,
        o.word_ids.getD t.1 none = none ∨ o.word_ids.getD t.2.1 none = none) :
    postprocess outs top_k false mal = PostResult.list [] := by
  rw [postprocess_eq]
  have hm : mergedAnswers outs top_k mal = [] := by
    simp only [mergedAnswers, List.flatten_eq_nil_iff, List.mem_map]
    rintro l ⟨o, ho, rfl⟩
    rw [chunkSurvivors, List.filterMap_eq_nil_iff]
    intro t ht
    rcases h o ho t ht with hnone | hnone <;>
      rcases h1 : o.word_ids.getD t.1 none with _ | v1 <;>
      rcases h2 : o.word_ids.getD t.2.1 none with _ | v2 <;>
      simp_all
  simp [answerPool, hm, sortDescBy, listToResult]

/-- Witness for C10 on a chunk whose only token maps to no word. -/
theorem C10_witness :
    postprocess [noneChunk] 1 false 15 = PostResult.list [] :=
  C10_no_survivors_empty_list [noneChunk] 1 15 (by decide)

end DocQA
